import Mathlib

/-!
Shallow embedding of the Retell native SDK demo app (src/App.tsx).

The app holds four pieces of React state (isCalling, isAgentTalking,
messages, input) plus a client ref that is set by the mount effect.
Event handlers and UI callbacks are embedded as pure functions from an
`AppState` to a new `AppState` together with the list of SDK method
calls (effects) they perform.
-/

namespace RetellDemo

/-- Message kinds, from the TypeScript union "user" | "agent" | "system". -/
inductive MsgType where
  | user
  | agent
  | system
  deriving DecidableEq, Repr

/-- One transcript entry: `{ type, text }` in App.tsx. -/
structure Message where
  type : MsgType
  text : String
  deriving DecidableEq, Repr

/-- The React state of the App component, plus whether the client ref is set
(`retellWebClientRef.current !== null`). -/
structure AppState where
  isCalling : Bool
  isAgentTalking : Bool
  messages : List Message
  input : String
  clientInit : Bool
  deriving DecidableEq, Repr

/-- SDK method invocations performed by the handlers. -/
inductive Effect where
  | startCall (agentId : String)
  | stopCall
  | sendUserMessage (text : String)
  deriving DecidableEq, Repr

/-- The payload of an "update" event. Each field models a JavaScript
property: the outer `Option` is presence (the `"x" in update` test), the
inner `Option` is a null/undefined value versus a string value (the `??`
fallbacks in the handler). -/
structure UpdatePayload where
  error : Option (Option String)
  status : Option (Option String)
  agent_message : Option (Option String)
  user_message : Option (Option String)
  deriving DecidableEq, Repr

/-- The named SDK events the component subscribes to in its mount effect. -/
inductive Event where
  | call_started (data : Option String)
  | call_ended (data : Option String)
  | agent_start_talking
  | agent_stop_talking
  | update (u : UpdatePayload)
  | error (e : Option String)
  deriving DecidableEq, Repr

/-- The hard-coded agent id constant at the top of App.tsx. -/
def agentId : String := "agent_1e1cc9d0370c420aab5f869e7e"

/-- The helper `addMessage(text, type)`: appends one entry to the messages state. -/
def addMessage (s : AppState) (text : String) (type : MsgType) : AppState :=
  { s with messages := s.messages ++ [⟨type, text⟩] }

/-- The "update" event handler registered in the mount effect. -/
def handleUpdate (s : AppState) (u : UpdatePayload) : AppState × List Effect :=
  match u.error with
  | some e => (addMessage s (e.getD "Unknown error") MsgType.system, [Effect.stopCall])
  | none =>
    let s1 :=
      match u.status with
      | some st =>
        let sa := if st = some "listening" then addMessage s "Agent is listening..." MsgType.system else s
        if st = some "recognizing" then addMessage sa "Recognizing speech..." MsgType.system else sa
      | none => s
    let s2 :=
      match u.agent_message with
      | some m => addMessage s1 (m.getD "") MsgType.agent
      | none => s1
    let s3 :=
      match u.user_message with
      | some m => addMessage s2 (m.getD "") MsgType.user
      | none => s2
    (s3, [])

/-- The event handlers registered with `client.on(...)` in the mount effect. -/
def handleEvent (s : AppState) : Event → AppState × List Effect
  | Event.call_started data => (addMessage s (data.getD "Call started") MsgType.system, [])
  | Event.call_ended data =>
      ({ addMessage s (data.getD "Call ended") MsgType.system with
          isCalling := false, isAgentTalking := false }, [])
  | Event.agent_start_talking => ({ s with isAgentTalking := true }, [])
  | Event.agent_stop_talking => ({ s with isAgentTalking := false }, [])
  | Event.update u => handleUpdate s u
  | Event.error e => (addMessage s (e.getD "Unknown error") MsgType.system, [Effect.stopCall])

/-- The `startCall` UI callback. -/
def startCall (s : AppState) : AppState × List Effect :=
  if s.clientInit then
    (addMessage { s with isCalling := true } "Calling agent..." MsgType.system,
      [Effect.startCall agentId])
  else
    (addMessage s "Client not initialized" MsgType.system, [])

/-- The `stopCall` UI callback. -/
def stopCall (s : AppState) : AppState × List Effect :=
  if s.clientInit then
    (addMessage { s with isCalling := false, isAgentTalking := false } "Call ended" MsgType.system,
      [Effect.stopCall])
  else
    (addMessage s "Client not initialized" MsgType.system, [])

/-- The JavaScript `String.prototype.trim` used by `sendMessage`: drops
leading and trailing whitespace characters, embedded structurally so it
evaluates by kernel reduction. -/
def trim (s : String) : String :=
  String.mk ((s.data.dropWhile Char.isWhitespace).reverse.dropWhile Char.isWhitespace).reverse

/-- The `sendMessage` UI callback. -/
def sendMessage (s : AppState) : AppState × List Effect :=
  let message := trim s.input
  if s.clientInit then
    if message = "" then (s, [])
    else ({ addMessage s message MsgType.user with input := "" },
      [Effect.sendUserMessage message])
  else
    (addMessage s "Client not initialized" MsgType.system, [])

/-- All operations of the program: SDK events and the three UI callbacks. -/
inductive Op where
  | event (e : Event)
  | userStartCall
  | userStopCall
  | userSendMessage
  deriving DecidableEq, Repr

/-- One step of the program under an operation. -/
def step (s : AppState) : Op → AppState × List Effect
  | Op.event e => handleEvent s e
  | Op.userStartCall => startCall s
  | Op.userStopCall => stopCall s
  | Op.userSendMessage => sendMessage s

/-- The state right after mount: all four useState initial values, with the
client ref set by the effect. -/
def initialState : AppState :=
  { isCalling := false, isAgentTalking := false, messages := [], input := "", clientInit := true }

/-- Number of the two boolean flags (call-active, agent-speaking) that differ
between two states. -/
def flagDiffCount (s t : AppState) : Nat :=
  (if s.isCalling = t.isCalling then 0 else 1) +
  (if s.isAgentTalking = t.isAgentTalking then 0 else 1)

/-- The entries the update handler appends, as a function of the payload. -/
def updDelta (u : UpdatePayload) : List Message :=
  match u.error with
  | some e => [⟨MsgType.system, e.getD "Unknown error"⟩]
  | none =>
    (match u.status with
     | some st =>
       (if st = some "listening" then [⟨MsgType.system, "Agent is listening..."⟩] else []) ++
       (if st = some "recognizing" then [⟨MsgType.system, "Recognizing speech..."⟩] else [])
     | none => []) ++
    (match u.agent_message with
     | some m => [⟨MsgType.agent, m.getD ""⟩]
     | none => []) ++
    (match u.user_message with
     | some m => [⟨MsgType.user, m.getD ""⟩]
     | none => [])

/-- The entries each event handler appends. -/
def eventDelta : Event → List Message
  | Event.call_started data => [⟨MsgType.system, data.getD "Call started"⟩]
  | Event.call_ended data => [⟨MsgType.system, data.getD "Call ended"⟩]
  | Event.agent_start_talking => []
  | Event.agent_stop_talking => []
  | Event.update u => updDelta u
  | Event.error e => [⟨MsgType.system, e.getD "Unknown error"⟩]

lemma handleUpdate_messages (s : AppState) (u : UpdatePayload) :
    (handleUpdate s u).1.messages = s.messages ++ updDelta u := by
  rcases u with ⟨e, st, am, um⟩
  rcases e with _ | e <;> rcases st with _ | st <;> rcases am with _ | am <;>
    rcases um with _ | um <;>
    simp only [handleUpdate, updDelta, addMessage] <;> (try split_ifs) <;> simp

lemma handleEvent_messages (s : AppState) (e : Event) :
    (handleEvent s e).1.messages = s.messages ++ eventDelta e := by
  cases e <;> simp [handleEvent, eventDelta, addMessage, handleUpdate_messages]

lemma handleUpdate_flags (s : AppState) (u : UpdatePayload) :
    (handleUpdate s u).1.isCalling = s.isCalling ∧
    (handleUpdate s u).1.isAgentTalking = s.isAgentTalking := by
  rcases u with ⟨e, st, am, um⟩
  rcases e with _ | e <;> rcases st with _ | st <;> rcases am with _ | am <;>
    rcases um with _ | um <;>
    simp only [handleUpdate, addMessage] <;> (try split_ifs) <;> simp

lemma updDelta_length (u : UpdatePayload) : (updDelta u).length ≤ 3 := by
  rcases u with ⟨e, st, am, um⟩
  rcases e with _ | e <;> rcases st with _ | st <;> rcases am with _ | am <;>
    rcases um with _ | um <;>
    simp only [updDelta] <;> (try split_ifs) <;> simp_all

/-- C2: every operation of the program (event handlers, startCall, stopCall,
sendMessage) extends the message list: the prior list is a prefix of the new
one, so no existing entry is changed or removed. -/
theorem transcript_append_only (s : AppState) (op : Op) :
    ∃ t, (step s op).1.messages = s.messages ++ t := by
  cases op with
  | event e => exact ⟨eventDelta e, handleEvent_messages s e⟩
  | userStartCall =>
      simp only [step, startCall]
      split_ifs <;> exact ⟨_, rfl⟩
  | userStopCall =>
      simp only [step, stopCall]
      split_ifs <;> exact ⟨_, rfl⟩
  | userSendMessage =>
      simp only [step, sendMessage]
      split_ifs <;> first | exact ⟨_, rfl⟩ | exact ⟨[], by simp⟩

/-- C1 counterexample: the agent_start_talking handler appends no transcript
entry, refuting the claim that every event handler appends exactly one entry
and changes at most one flag. -/
theorem per_event_one_append_claim_false :
    ¬ (∀ (s : AppState) (e : Event),
        (handleEvent s e).1.messages.length = s.messages.length + 1 ∧
        flagDiffCount s (handleEvent s e).1 ≤ 1) := by
  intro h
  have hx := (h initialState Event.agent_start_talking).1
  simp [handleEvent, initialState] at hx

/-- C1 (amended): call_started and error append exactly one entry and change
no flag; call_ended appends exactly one entry and clears both flags;
agent_start_talking and agent_stop_talking append nothing and only set the
agent-speaking flag; update appends between zero and three entries and
changes no flag. -/
theorem per_event_append_and_flags (s : AppState) (e : Event) :
    match e with
    | Event.call_started _ =>
        (handleEvent s e).1.messages.length = s.messages.length + 1 ∧
        flagDiffCount s (handleEvent s e).1 = 0
    | Event.call_ended _ =>
        (handleEvent s e).1.messages.length = s.messages.length + 1 ∧
        (handleEvent s e).1.isCalling = false ∧
        (handleEvent s e).1.isAgentTalking = false
    | Event.agent_start_talking =>
        (handleEvent s e).1.messages.length = s.messages.length ∧
        (handleEvent s e).1.isAgentTalking = true ∧
        (handleEvent s e).1.isCalling = s.isCalling
    | Event.agent_stop_talking =>
        (handleEvent s e).1.messages.length = s.messages.length ∧
        (handleEvent s e).1.isAgentTalking = false ∧
        (handleEvent s e).1.isCalling = s.isCalling
    | Event.update _ =>
        s.messages.length ≤ (handleEvent s e).1.messages.length ∧
        (handleEvent s e).1.messages.length ≤ s.messages.length + 3 ∧
        flagDiffCount s (handleEvent s e).1 = 0
    | Event.error _ =>
        (handleEvent s e).1.messages.length = s.messages.length + 1 ∧
        flagDiffCount s (handleEvent s e).1 = 0 := by
  cases e with
  | update u =>
      have hm := handleUpdate_messages s u
      have hf := handleUpdate_flags s u
      have hl := updDelta_length u
      simp only [handleEvent, flagDiffCount, hf.1, hf.2, hm, List.length_append]
      simp
      omega
  | _ => simp [handleEvent, addMessage, flagDiffCount]

/-- C5 counterexample: the agent_stop_talking handler appends no transcript
entry, refuting the claim that every event handler appends at least one
entry. -/
theorem per_event_min_append_claim_false :
    ¬ (∀ (s : AppState) (e : Event),
        s.messages.length + 1 ≤ (handleEvent s e).1.messages.length) := by
  intro h
  have hx := h initialState Event.agent_stop_talking
  simp [handleEvent, initialState] at hx

/-- C5 (amended): the call_started, call_ended and error handlers each append
at least one transcript entry for the received payload. -/
theorem named_payload_events_append (s : AppState) (d1 d2 er : Option String) :
    s.messages.length + 1 ≤ (handleEvent s (Event.call_started d1)).1.messages.length ∧
    s.messages.length + 1 ≤ (handleEvent s (Event.call_ended d2)).1.messages.length ∧
    s.messages.length + 1 ≤ (handleEvent s (Event.error er)).1.messages.length := by
  simp [handleEvent, addMessage]

/-- C3 counterexample: when the update payload carries both an error field and
an agent_message field, the handler returns after the error branch and appends
no agent-kind entry, refuting the claim as stated. -/
theorem update_agent_message_claim_false :
    ¬ (∀ (s : AppState) (u : UpdatePayload) (t : String),
        u.agent_message = some (some t) →
        ((handleUpdate s u).1.messages.drop s.messages.length).filter
          (fun x => decide (x.type = MsgType.agent)) = [⟨MsgType.agent, t⟩]) := by
  intro h
  have hx := h initialState ⟨some (some "boom"), none, some (some "hi"), none⟩ "hi" rfl
  simp [handleUpdate, initialState, addMessage] at hx

/-- C3 (amended): for every update event whose payload contains an
agent_message field and no error field, the handler appends exactly one
agent-kind entry whose text is the agent_message value when it is a string and
the empty string when it is null. -/
theorem update_agent_message_appends (s : AppState) (u : UpdatePayload) (m : Option String)
    (h1 : u.error = none) (h2 : u.agent_message = some m) :
    ((handleUpdate s u).1.messages.drop s.messages.length).filter
      (fun x => decide (x.type = MsgType.agent)) = [⟨MsgType.agent, m.getD ""⟩] := by
  rw [handleUpdate_messages, List.drop_left]
  rcases u with ⟨e, st, am, um⟩
  obtain rfl : e = none := h1
  obtain rfl : am = some m := h2
  rcases st with _ | st <;> rcases um with _ | um <;>
    simp only [updDelta] <;> (try split_ifs) <;> simp

theorem update_agent_message_appends_witness :
    ((handleUpdate initialState ⟨none, none, some (some "hello"), none⟩).1.messages.drop
        initialState.messages.length).filter (fun x => decide (x.type = MsgType.agent)) =
      [⟨MsgType.agent, "hello"⟩] :=
  update_agent_message_appends initialState ⟨none, none, some (some "hello"), none⟩
    (some "hello") rfl rfl

/-- C4: on an error event, and on an update payload containing an error field,
the handler appends exactly one system entry carrying the SDK-supplied error
string (or "Unknown error" when the value is null), and its only SDK call is
stopCall: no retry or recovery. -/
theorem failure_appends_and_stops (s : AppState) (eo : Option String)
    (u : UpdatePayload) (err : Option String) (hu : u.error = some err) :
    handleEvent s (Event.error eo) =
      (addMessage s (eo.getD "Unknown error") MsgType.system, [Effect.stopCall]) ∧
    handleUpdate s u =
      (addMessage s (err.getD "Unknown error") MsgType.system, [Effect.stopCall]) := by
  refine ⟨rfl, ?_⟩
  rcases u with ⟨e, st, am, um⟩
  obtain rfl : e = some err := hu
  rfl

theorem failure_appends_and_stops_witness :
    handleEvent initialState (Event.error (some "E")) =
      (addMessage initialState "E" MsgType.system, [Effect.stopCall]) ∧
    handleUpdate initialState ⟨some (some "F"), none, none, none⟩ =
      (addMessage initialState "F" MsgType.system, [Effect.stopCall]) :=
  failure_appends_and_stops initialState (some "E")
    ⟨some (some "F"), none, none, none⟩ (some "F") rfl

/-- C6: with the client initialized, startCall calls the SDK with the
configured agent id, stopCall with no arguments, and sendMessage passes the
trimmed input text to sendUserMessage. -/
theorem sdk_call_arguments (s : AppState) (h : s.clientInit = true) :
    (startCall s).2 = [Effect.startCall agentId] ∧
    (stopCall s).2 = [Effect.stopCall] ∧
    (trim s.input ≠ "" → (sendMessage s).2 = [Effect.sendUserMessage (trim s.input)]) :=
  ⟨by simp [startCall, h], by simp [stopCall, h],
    fun hm => by simp [sendMessage, h, hm]⟩

theorem sdk_call_arguments_witness :
    (startCall { initialState with input := " hi " }).2 = [Effect.startCall agentId] ∧
    (sendMessage { initialState with input := " hi " }).2 = [Effect.sendUserMessage "hi"] := by
  have h := sdk_call_arguments { initialState with input := " hi " } rfl
  exact ⟨h.1, h.2.2 (by decide)⟩

/-- C7: every entry in the message list after any operation has kind user,
agent or system. -/
theorem message_kinds_closed (s : AppState) (op : Op) (m : Message)
    (h : m ∈ (step s op).1.messages) :
    m.type = MsgType.user ∨ m.type = MsgType.agent ∨ m.type = MsgType.system := by
  rcases m with ⟨k, t⟩
  cases k <;> simp

theorem message_kinds_closed_witness :
    (⟨MsgType.system, "Calling agent..."⟩ : Message) ∈
        (step initialState Op.userStartCall).1.messages ∧
      ((⟨MsgType.system, "Calling agent..."⟩ : Message).type = MsgType.user ∨
        (⟨MsgType.system, "Calling agent..."⟩ : Message).type = MsgType.agent ∨
        (⟨MsgType.system, "Calling agent..."⟩ : Message).type = MsgType.system) :=
  ⟨by decide, message_kinds_closed initialState Op.userStartCall _ (by decide)⟩

/-- C8: with the client initialized and a blank (empty or whitespace-only)
input, sendMessage changes nothing: no entry, no SDK call, same state. -/
theorem sendMessage_blank_noop (s : AppState) (h1 : s.clientInit = true)
    (h2 : trim s.input = "") : sendMessage s = (s, []) := by
  simp [sendMessage, h1, h2]

theorem sendMessage_blank_noop_witness :
    sendMessage { initialState with input := "   " } =
      ({ initialState with input := "   " }, []) :=
  sendMessage_blank_noop { initialState with input := "   " } rfl (by decide)

/-- C9: the error event handler leaves both boolean flags unchanged, and the
update handler on a payload with an error field produces exactly the state
with one system entry appended, ignoring status, agent_message and
user_message. -/
theorem error_leaves_flags_and_skips_fields (s : AppState) (eo : Option String)
    (u : UpdatePayload) (err : Option String) (hu : u.error = some err) :
    (handleEvent s (Event.error eo)).1.isCalling = s.isCalling ∧
    (handleEvent s (Event.error eo)).1.isAgentTalking = s.isAgentTalking ∧
    (handleUpdate s u).1 = addMessage s (err.getD "Unknown error") MsgType.system := by
  refine ⟨rfl, rfl, ?_⟩
  rcases u with ⟨e, st, am, um⟩
  obtain rfl : e = some err := hu
  rfl

theorem error_leaves_flags_and_skips_fields_witness :
    (handleEvent initialState (Event.error (some "E2"))).1.isCalling =
        initialState.isCalling ∧
      (handleEvent initialState (Event.error (some "E2"))).1.isAgentTalking =
        initialState.isAgentTalking ∧
      (handleUpdate initialState
            ⟨some none, some (some "listening"), some (some "x"), some (some "y")⟩).1 =
        addMessage initialState "Unknown error" MsgType.system :=
  error_leaves_flags_and_skips_fields initialState (some "E2")
    ⟨some none, some (some "listening"), some (some "x"), some (some "y")⟩ none rfl

/-- C10: with the client initialized, stopCall clears both flags, calls the
SDK stopCall and appends one system entry "Call ended"; without a client it
only appends one system entry "Client not initialized". -/
theorem stopCall_behavior (s : AppState) :
    (s.clientInit = true →
      stopCall s =
        ({ s with
            isCalling := false
            isAgentTalking := false
            messages := s.messages ++ [⟨MsgType.system, "Call ended"⟩] },
          [Effect.stopCall])) ∧
    (s.clientInit = false →
      stopCall s =
        ({ s with messages := s.messages ++ [⟨MsgType.system, "Client not initialized"⟩] },
          [])) := by
  constructor <;> intro h <;> simp [stopCall, addMessage, h]

theorem stopCall_behavior_witness :
    stopCall { initialState with isCalling := true, isAgentTalking := true } =
      ({ initialState with messages := [⟨MsgType.system, "Call ended"⟩] },
        [Effect.stopCall]) ∧
    stopCall { initialState with clientInit := false } =
      ({ initialState with
          clientInit := false
          messages := [⟨MsgType.system, "Client not initialized"⟩] }, []) := by
  have h1 := (stopCall_behavior
    { initialState with isCalling := true, isAgentTalking := true }).1 rfl
  have h2 := (stopCall_behavior { initialState with clientInit := false }).2 rfl
  exact ⟨by simpa using h1, by simpa using h2⟩

end RetellDemo
